import Mathlib

/-!
Shallow embedding of `cloud-image-launcher.py` (class `CloudImgLauncher`).

The script drives libvirt: `create` provisions a VM (copy-on-write disk via
`qemu-img`, cloud-init seed ISO via `genisoimage`, domain via `virt-install`,
then DHCP-lease polling for the IP), `destroy` tears one down, `fetch`
downloads a base image.

Modelling conventions:
  * External state (defined domains, running domains, the distribution
    catalog loaded from `distros/distros.yaml`, exit status of invoked
    commands, the hypervisor's network list and DHCP-lease snapshots, MAC
    addresses reported in a domain's XML, readability of the public key
    file) lives in a `World` record.  Exit statuses and lease snapshots are
    oracles (functions), since they are decided outside the program.
  * Every operation returns `Except PyError α × List Event`: the Python
    result or the uncaught exception, together with the trace of observable
    actions (info-level log lines, `lookupByName` queries, subprocess
    invocations, `dom.destroy()` calls, `/tmp` file writes, lease polls,
    sleeps).  Debug-level logging is not traced.
  * Python dict indexing `self.images[k]` raises `KeyError` when `k` is
    absent; list indexing `[...][0]` on an empty list raises `IndexError`;
    `open(...)` on an unreadable key file raises `IOError`;
    `conn.lookupByName` on an absent domain raises a libvirt "no domain"
    error.  These are the `PyError` constructors.
-/

namespace CloudImgLauncher

/-- Exceptions the script can raise (uncaught ones propagate out of `main`). -/
inductive PyError where
  | keyError (key : String)
  | indexError
  | ioError
  | libvirtNoDomain
  | unboundLocal
  | systemExit (code : Nat)
  deriving Repr, DecidableEq

/-- Observable actions, in program order. -/
inductive Event where
  | log (msg : String)
  | lookup (name : String)
  | exec (argv : List String)
  | domStop (name : String)
  | writeFile (path : String)
  | pollLeases
  | sleep
  deriving Repr, DecidableEq

/-- Actions that mutate state outside the process: subprocess invocations,
forcible domain stops, file writes.  Log lines, lookups, lease polls and
sleeps are observations only. -/
def Event.isMutation : Event → Bool
  | .exec _ => true
  | .domStop _ => true
  | .writeFile _ => true
  | _ => false

/-- One DHCP lease record as returned by `net.DHCPLeases()`. -/
structure Lease where
  mac : String
  ipaddr : String
  deriving Repr, DecidableEq

/-- One entry of `distros/distros.yaml`: local image filename, template
family directory, os-variant tag, download URL. -/
structure DistroSpec where
  image : String
  distro : String
  os : String
  url : String
  deriving Repr, DecidableEq

/-- Parsed command-line arguments (`self.args`). -/
structure Args where
  command : String
  hostname : String
  distribution : String
  memory : String
  pub_key_path : String
  deriving Repr, DecidableEq

/-- External state and oracles. -/
structure World where
  /-- names of defined domains; `lookupByName` succeeds exactly on these -/
  domains : List String
  /-- names of running domains (`dom.isActive()`) -/
  active : List String
  /-- `self.images`, the catalog keyed by distribution identifier -/
  catalog : List (String × DistroSpec)
  /-- exit-status oracle for invoked commands: `true` = exit 0 -/
  toolOk : List String → Bool
  /-- names returned by `conn.listAllNetworks()` -/
  networks : List String
  /-- DHCP-lease snapshot seen by the n-th poll of the loop -/
  leasesAt : Nat → List Lease
  /-- MAC addresses in a domain's XML interface definitions, in order -/
  domainMacs : String → List String
  /-- files already present on disk (for `fetch`'s `is_file` check) -/
  existingFiles : List String
  /-- whether `open(pub_key_path)` succeeds -/
  keyReadable : Bool

/-- `self.images_path`. -/
def imagesPath : String := "/var/lib/libvirt/images"

/-- Python dict lookup `d[k]`: raises `KeyError(k)` when absent. -/
def dictGet (d : List (String × DistroSpec)) (k : String) : Except PyError DistroSpec :=
  match d.find? (fun p => p.1 == k) with
  | some p => .ok p.2
  | none => .error (.keyError k)

/-- `CloudImgLauncher.execute` (lines 99-110): runs `argv`; returns `True` on
exit 0.  On `CalledProcessError` it returns `False` when `output ==
'devnull'`, otherwise it logs the output at debug level and falls off the
end, returning `None`.  It never raises. -/
def execute (toolOk : List String → Bool) (argv : List String) (output : Option String) :
    Option Bool :=
  if toolOk argv then some true
  else if output == some "devnull" then some false
  else none

/-- The `qemu-img` command built in `_create_image`. -/
def qemuImgCmd (base disk : String) : List String :=
  ["sudo", "qemu-img", "create", "-q", "-f", "qcow2", "-b", base, disk]

/-- The `genisoimage` command built in `_create_cloud_init_config`. -/
def genisoimageCmd (iso : String) : List String :=
  ["sudo", "genisoimage", "-output", iso, "-volid", "cidata", "-joliet", "-rock",
   "/tmp/user-data", "/tmp/meta-data"]

/-- The `virt-install` command built in `_create_instance`. -/
def virtInstallCmd (a : Args) (spec : DistroSpec) : List String :=
  ["sudo", "virt-install", "--connect=qemu:///system", "--accelerate",
   "--boot", "hd", "--noautoconsole", "--graphics", "vnc",
   "--disk", imagesPath ++ "/" ++ a.hostname,
   "--disk", "path=" ++ imagesPath ++ "/" ++ a.hostname ++ ".iso,device=cdrom",
   "--network", "bridge=virbr0,model=virtio", "--os-variant", spec.os,
   "--vcpus=4", "--cpu", "host", "--ram", a.memory, "--name", a.hostname]

/-- The `virsh undefine` command built in `destroy`. -/
def virshUndefineCmd (h : String) : List String :=
  ["sudo", "virsh", "--quiet", "undefine", h, "--snapshots-metadata",
   "--remove-all-storage"]

/-- The list comprehension `[lease['ipaddr'] for lease in net.DHCPLeases()
if lease['mac'] == mac]` over one snapshot. -/
def leaseMatches (snapshot : List Lease) (mac : String) : List String :=
  (snapshot.filter (fun l => l.mac == mac)).map (fun l => l.ipaddr)

/-- `self.conn.lookupByName(...)` in `get_ip_address_from_dhcp_leases` is not
involved; this is the `while True` loop of lines 158-171.  `attempt` is the
Python counter, `remaining = max_attempt - attempt` drives the recursion:
`remaining = 0` exactly when `attempt == max_attempt`, where the loop logs
the timeout and breaks with `ipaddr` still `None`.  A non-empty match list
breaks immediately with its first element. -/
def dhcpPollLoop (leasesAt : Nat → List Lease) (mac : String) :
    Nat → Nat → Option String × List Event
  | attempt, 0 =>
    match leaseMatches (leasesAt attempt) mac with
    | [] => (none, [.pollLeases, .log "Timeout trying to discover VM ip address"])
    | ip :: _ => (some ip, [.pollLeases])
  | attempt, r + 1 =>
    match leaseMatches (leasesAt attempt) mac with
    | [] =>
      let rest := dhcpPollLoop leasesAt mac (attempt + 1) r
      (rest.1, .pollLeases :: .sleep :: rest.2)
    | ip :: _ => (some ip, [.pollLeases])

/-- `max_attempt = 45` (line 154). -/
def max_attempt : Nat := 45

/-- `CloudImgLauncher.get_ip_address_from_dhcp_leases` (lines 146-172).
Empty `macs`: log and return `None` at once.  Otherwise take `macs[0]`, log,
look up the `default` network with `[...][0]` (raising `IndexError` when no
network is named `default`), and run the poll loop. -/
def get_ip_address_from_dhcp_leases (networks : List String)
    (leasesAt : Nat → List Lease) (macs : List String) :
    Except PyError (Option String) × List Event :=
  match macs with
  | [] => (.ok none, [.log "No MAC addr found for that dom"])
  | mac :: _ =>
    let ev0 : List Event :=
      [.log ("Getting IP address - waiting for DHCP lease (" ++ mac ++ ") ...")]
    match networks.filter (fun n => n == "default") with
    | [] => (.error .indexError, ev0)
    | _ :: _ =>
      let r := dhcpPollLoop leasesAt mac 0 max_attempt
      (.ok r.1, ev0 ++ r.2)

/-- Number of `net.DHCPLeases()` snapshot queries in a trace. -/
def pollCount (tr : List Event) : Nat := tr.count .pollLeases

/-- Number of `time.sleep(1)` calls in a trace. -/
def sleepCount (tr : List Event) : Nat := tr.count .sleep

/-- Outcome of `self.conn.lookupByName(hostname)` as seen by `is_instance`:
success, the libvirt "no domain" error, some other `libvirtError` (dead
connection, permission failure, ...), or a non-libvirt exception. -/
inductive LookupResult where
  | found
  | errNoDomain
  | errLibvirtOther
  | errOther
  deriving Repr, DecidableEq

/-- `CloudImgLauncher.is_instance` (lines 112-123), keyed by what
`lookupByName` does.  Python semantics of its `try/except/finally`:
  * lookup succeeds → `is_instance = True`, `finally` returns `True`;
  * any `libvirt.libvirtError` — the "no domain" case and every other
    libvirt failure alike — is caught by the first `except` clause, which
    sets `is_instance = False`; `finally` returns `False`;
  * any other exception reaches `except Exception`, which logs and
    re-raises; but the `return is_instance` in `finally` swallows that
    in-flight exception, and since `is_instance` was never assigned the
    read itself raises `UnboundLocalError`.
So no lookup failure ever propagates as itself, and non-"no domain" libvirt
failures are silently reported as "instance absent". -/
def is_instance (r : LookupResult) : Except PyError Bool :=
  match r with
  | .found => .ok true
  | .errNoDomain => .ok false
  | .errLibvirtOther => .ok false
  | .errOther => .error .unboundLocal

/-- `is_instance` inside the `World` model, where the hypervisor connection
is healthy: `lookupByName` succeeds exactly on defined domains (`found` or
`errNoDomain`; the `is_instance` definition above covers the failure
modes).  Returns the flag plus the trace (info log, lookup query). -/
def is_instance_w (w : World) (h : String) : Bool × List Event :=
  (w.domains.contains h, [.log ("check if instance " ++ h ++ " exist"), .lookup h])

/-- `CloudImgLauncher.get_instance_macs` (lines 125-134): `lookupByName`
raises (uncaught) when the domain is absent; otherwise the MACs are read
from the domain XML in interface-definition order. -/
def get_instance_macs (w : World) (h : String) :
    Except PyError (List String) × List Event :=
  if w.domains.contains h then (.ok (w.domainMacs h), [.lookup h])
  else (.error .libvirtNoDomain, [.lookup h])

/-- `CloudImgLauncher.get_dom_ip` (lines 174-176). -/
def get_dom_ip (w : World) (h : String) :
    Except PyError (Option String) × List Event :=
  match get_instance_macs w h with
  | (.error e, tr) => (.error e, tr)
  | (.ok macs, tr) =>
    let r := get_ip_address_from_dhcp_leases w.networks w.leasesAt macs
    (r.1, tr ++ r.2)

/-- `CloudImgLauncher._create_image` (lines 136-144).  The catalog access
`self.images[self.args.distribution]` raises `KeyError` on an unknown
identifier, before any command runs.  The `qemu-img` exit status is
computed by `execute(..., output='devnull')` and then discarded, so a
failed disk creation does not interrupt anything; the "created" line is
logged unconditionally. -/
def _create_image (w : World) (a : Args) : Except PyError World × List Event :=
  match dictGet w.catalog a.distribution with
  | .error e => (.error e, [])
  | .ok spec =>
    let base := imagesPath ++ "/" ++ spec.image
    let disk := imagesPath ++ "/" ++ a.hostname
    let cmd := qemuImgCmd base disk
    let _ := execute w.toolOk cmd (some "devnull")
    (.ok w, [.exec cmd, .log (disk ++ " created")])

/-- `CloudImgLauncher._create_cloud_init_config` (lines 178-203).  After the
opening log line, the catalog access (line 185) can raise `KeyError`;
rendering the first template calls `get_key()`, which raises when the
public key file is unreadable — before any `/tmp` file is written.
Otherwise `user-data` and `meta-data` are written and `genisoimage` is run
(exit status again discarded). -/
def _create_cloud_init_config (w : World) (a : Args) :
    Except PyError World × List Event :=
  let ev0 : List Event := [.log "create cloud-init config file"]
  match dictGet w.catalog a.distribution with
  | .error e => (.error e, ev0)
  | .ok _ =>
    if w.keyReadable then
      let iso := imagesPath ++ "/" ++ a.hostname ++ ".iso"
      let cmd := genisoimageCmd iso
      let _ := execute w.toolOk cmd (some "devnull")
      (.ok w, ev0 ++ [.writeFile "/tmp/user-data", .writeFile "/tmp/meta-data",
                      .exec cmd, .log ("cloud-init " ++ iso ++ " created")])
    else
      (.error .ioError, ev0)

/-- `CloudImgLauncher._create_instance` (lines 205-229).  Catalog access can
raise `KeyError`; `virt-install` is run with `output=None` (exit status
discarded); the domain becomes defined exactly when `virt-install`
succeeded; then `get_dom_ip` runs — its `lookupByName` raises when
`virt-install` failed to define the domain — and the closing log line
depends on whether an address was found. -/
def _create_instance (w : World) (a : Args) : Except PyError World × List Event :=
  match dictGet w.catalog a.distribution with
  | .error e => (.error e, [])
  | .ok spec =>
    let cmd := virtInstallCmd a spec
    let _ := execute w.toolOk cmd none
    let w' := if w.toolOk cmd then
        { w with domains := a.hostname :: w.domains, active := a.hostname :: w.active }
      else w
    match get_dom_ip w' a.hostname with
    | (.error e, tr) => (.error e, .exec cmd :: tr)
    | (.ok ipaddr, tr) =>
      let fin := match ipaddr with
        | none => Event.log "sudo virsh --connect=qemu:///system net-dhcp-leases default"
        | some ip => Event.log ("Your VM net iface is up at " ++ ip)
      (.ok w', .exec cmd :: (tr ++ [fin]))

/-- `CloudImgLauncher.create` (lines 231-240): existence check first; when
the instance exists, log "already exists" and return; otherwise run the
three provisioning steps in order, each uncaught exception propagating. -/
def create (w : World) (a : Args) : Except PyError World × List Event :=
  let ck := is_instance_w w a.hostname
  if ck.1 then
    (.ok w, ck.2 ++ [.log ("instance " ++ a.hostname ++ " already exists")])
  else
    let ev0 := ck.2 ++ [.log ("creating instance " ++ a.hostname)]
    match _create_image w a with
    | (.error e, tr1) => (.error e, ev0 ++ tr1)
    | (.ok w1, tr1) =>
      match _create_cloud_init_config w1 a with
      | (.error e, tr2) => (.error e, ev0 ++ (tr1 ++ tr2))
      | (.ok w2, tr2) =>
        let r := _create_instance w2 a
        (r.1, ev0 ++ (tr1 ++ (tr2 ++ r.2)))

/-- `CloudImgLauncher.destroy` (lines 242-256): existence check first; when
absent, log "does not exists" and return.  Otherwise a second
`lookupByName`, a forcible `dom.destroy()` when active, then the `virsh
undefine --remove-all-storage` command (exit status discarded); the domain
stays defined when that command failed. -/
def destroy (w : World) (a : Args) : Except PyError World × List Event :=
  let ck := is_instance_w w a.hostname
  if !ck.1 then
    (.ok w, ck.2 ++ [.log ("instance " ++ a.hostname ++ " does not exists")])
  else
    let ev0 := ck.2 ++ [.log ("destroy instance " ++ a.hostname), .lookup a.hostname]
    let stopEv : List Event :=
      if w.active.contains a.hostname then [.domStop a.hostname] else []
    let w1 := if w.active.contains a.hostname then
        { w with active := w.active.erase a.hostname }
      else w
    let cmd := virshUndefineCmd a.hostname
    let _ := execute w1.toolOk cmd none
    let w2 := if w1.toolOk cmd then { w1 with domains := w1.domains.erase a.hostname }
      else w1
    (.ok w2, ev0 ++ stopEv ++ [.exec cmd, .log ("instance " ++ a.hostname ++ " destroyed")])

/-- `CloudImgLauncher.fetch` (lines 258-272): unknown distribution logs the
available identifiers and calls `sys.exit(1)`; an already-present base
image is a no-op; otherwise `curl` downloads it. -/
def fetch (w : World) (a : Args) : Except PyError World × List Event :=
  match dictGet w.catalog a.distribution with
  | .error _ =>
    (.error (.systemExit 1),
     [.log ("Available distributions: " ++ String.intercalate ", " (w.catalog.map Prod.fst))])
  | .ok spec =>
    let base := imagesPath ++ "/" ++ spec.image
    if w.existingFiles.contains base then
      (.ok w, [.log ("Image " ++ a.distribution ++ " availables")])
    else
      let cmd := ["sudo", "curl", "-o", base, "-L", spec.url]
      let _ := execute w.toolOk cmd none
      let w' := if w.toolOk cmd then { w with existingFiles := base :: w.existingFiles }
        else w
      (.ok w', [.log ("Fetching " ++ spec.url), .exec cmd,
                .log ("Image " ++ a.distribution ++ " availables")])

/-- `getattr(self, self.args.command)()` in `main` (line 277): dispatch by
subcommand name; argparse restricts the name to the three subcommands. -/
def runCommand (w : World) (a : Args) : Except PyError World × List Event :=
  if a.command == "create" then create w a
  else if a.command == "destroy" then destroy w a
  else fetch w a

/-- How a run of the process terminates. -/
inductive ExitKind where
  | normal
  | sysExit (code : Nat)
  | raised (e : PyError)
  deriving Repr, DecidableEq

/-- `CloudImgLauncher.main` (lines 274-278) together with `__init__`:
`libvirt.open` runs in the constructor, so the connection is open before
any command.  `parse_arguments` with no subcommand prints help and calls
`sys.exit(0)`.  There is no `try/finally`: `self.conn.close()` (line 278)
runs only when the dispatched command returns normally.  `parsed = none`
models an invocation without a subcommand.  The returned `Bool` is whether
the connection is still open when the process terminates. -/
def main (w : World) (parsed : Option Args) : ExitKind × Bool :=
  match parsed with
  | none => (.sysExit 0, true)
  | some a =>
    match (runCommand w a).1 with
    | .error (.systemExit c) => (.sysExit c, true)
    | .error e => (.raised e, true)
    | .ok _ => (.normal, false)

/-- `Except.isOk` specialised so witness goals stay decidable even though
`World` carries function-valued oracles. -/
def resultIsOk {α : Type} : Except PyError α → Bool
  | .ok _ => true
  | .error _ => false

/-- Boolean check that a result is the given error, again avoiding
decidable equality on `World`. -/
def resultIsError {α : Type} (r : Except PyError α) (e : PyError) : Bool :=
  match r with
  | .error e' => e' == e
  | .ok _ => false

/-! ## Concrete fixtures for witnesses and counterexamples -/

/-- A catalog entry in the shape of `distros/distros.yaml`. -/
def specF : DistroSpec :=
  { image := "fedora31.qcow2", distro := "fedora", os := "fedora31",
    url := "https://example.org/fedora31.qcow2" }

def catalog0 : List (String × DistroSpec) := [("fedora31", specF)]

def leaseA : Lease := { mac := "52:54:00:00:00:01", ipaddr := "192.168.122.50" }

/-- Healthy world: empty hypervisor, every external command succeeds, the
`default` network exists and its lease table already holds `leaseA`. -/
def wAll : World :=
  { domains := [], active := [], catalog := catalog0,
    toolOk := fun _ => true, networks := ["default"],
    leasesAt := fun _ => [leaseA],
    domainMacs := fun _ => ["52:54:00:00:00:01"],
    existingFiles := [], keyReadable := true }

/-- Same world except every `qemu-img` invocation exits non-zero. -/
def wNoQemu : World :=
  { wAll with toolOk := fun argv => !argv.contains "qemu-img" }

def argsCreate : Args :=
  { command := "create", hostname := "vm1", distribution := "fedora31",
    memory := "4096", pub_key_path := "~/.ssh/id_rsa.pub" }

def argsCreateUnknown : Args :=
  { argsCreate with distribution := "unknowndistro" }

def argsDestroy : Args :=
  { command := "destroy", hostname := "vm1", distribution := "",
    memory := "4096", pub_key_path := "~/.ssh/id_rsa.pub" }

/-- Trace produced by a poll loop that exhausts `r` sleeps without a match:
`r + 1` snapshot queries interleaved with `r` one-second sleeps, ending in
the timeout report. -/
def timeoutTrace : Nat → List Event
  | 0 => [.pollLeases, .log "Timeout trying to discover VM ip address"]
  | r + 1 => .pollLeases :: .sleep :: timeoutTrace r

/-- Trace produced by a poll loop whose first match arrives on the
`(d+1)`-th snapshot: `d + 1` queries and `d` sleeps, no timeout report. -/
def foundTrace : Nat → List Event
  | 0 => [.pollLeases]
  | d + 1 => .pollLeases :: .sleep :: foundTrace d

lemma pollCount_timeoutTrace : ∀ r, pollCount (timeoutTrace r) = r + 1 := by
  intro r
  induction r with
  | zero => rfl
  | succ n ih => simp [timeoutTrace, pollCount, List.count_cons] at ih ⊢; omega

lemma sleepCount_timeoutTrace : ∀ r, sleepCount (timeoutTrace r) = r := by
  intro r
  induction r with
  | zero => rfl
  | succ n ih => simp [timeoutTrace, sleepCount, List.count_cons] at ih ⊢; omega

lemma timeout_log_mem_timeoutTrace :
    ∀ r, Event.log "Timeout trying to discover VM ip address" ∈ timeoutTrace r := by
  intro r
  induction r with
  | zero => simp [timeoutTrace]
  | succ n ih => simp [timeoutTrace, ih]

lemma pollCount_foundTrace : ∀ d, pollCount (foundTrace d) = d + 1 := by
  intro d
  induction d with
  | zero => rfl
  | succ n ih => simp [foundTrace, pollCount, List.count_cons] at ih ⊢; omega

lemma sleepCount_foundTrace : ∀ d, sleepCount (foundTrace d) = d := by
  intro d
  induction d with
  | zero => rfl
  | succ n ih => simp [foundTrace, sleepCount, List.count_cons] at ih ⊢; omega

/-- When no snapshot ever matches `mac`, the loop runs `r` sleeps past the
first query and stops with `None` and the timeout trace. -/
lemma dhcpPollLoop_never_matches (leasesAt : Nat → List Lease) (mac : String)
    (h : ∀ n, leaseMatches (leasesAt n) mac = []) :
    ∀ r attempt, dhcpPollLoop leasesAt mac attempt r = (none, timeoutTrace r) := by
  intro r
  induction r with
  | zero => intro attempt; simp [dhcpPollLoop, h attempt, timeoutTrace]
  | succ n ih =>
    intro attempt
    simp [dhcpPollLoop, h attempt, timeoutTrace, ih (attempt + 1)]

/-- When the first matching snapshot is the one seen at offset `d` (with
`d ≤ r` sleeps still allowed) and its first matching lease carries `ip`,
the loop stops there with `ip` and the `d`-deep found trace. -/
lemma dhcpPollLoop_first_match (leasesAt : Nat → List Lease) (mac ip : String)
    (ips : List String) :
    ∀ (d attempt r : Nat), d ≤ r →
      (∀ j, j < d → leaseMatches (leasesAt (attempt + j)) mac = []) →
      leaseMatches (leasesAt (attempt + d)) mac = ip :: ips →
      dhcpPollLoop leasesAt mac attempt r = (some ip, foundTrace d) := by
  intro d
  induction d with
  | zero =>
    intro attempt r _ _ hm
    rw [Nat.add_zero] at hm
    match r with
    | 0 => simp [dhcpPollLoop, hm, foundTrace]
    | r' + 1 => simp [dhcpPollLoop, hm, foundTrace]
  | succ n ih =>
    intro attempt r hd hb hm
    match r with
    | 0 => omega
    | r' + 1 =>
      have h0 : leaseMatches (leasesAt attempt) mac = [] := by
        have := hb 0 (Nat.succ_pos n)
        rwa [Nat.add_zero] at this
      have hb' : ∀ j, j < n → leaseMatches (leasesAt (attempt + 1 + j)) mac = [] := by
        intro j hj
        have := hb (j + 1) (by omega)
        rwa [show attempt + (j + 1) = attempt + 1 + j by omega] at this
      have hm' : leaseMatches (leasesAt (attempt + 1 + n)) mac = ip :: ips := by
        rwa [show attempt + (n + 1) = attempt + 1 + n by omega] at hm
      have := ih (attempt + 1) r' (by omega) hb' hm'
      simp [dhcpPollLoop, h0, this, foundTrace]

/-- A network list containing `default` yields a non-empty filter, so the
`[...][0]` indexing succeeds. -/
lemma filter_default_ne_nil {networks : List String} (h : "default" ∈ networks) :
    networks.filter (fun n => n == "default") ≠ [] := by
  intro hnil
  have := List.filter_eq_nil_iff.mp hnil "default" h
  simp at this

/-- With a default network present, the resolver never raises: its result
is always `.ok` (some address or `None`). -/
lemma resolver_ok_of_default (networks : List String) (leasesAt : Nat → List Lease)
    (macs : List String) (hnet : "default" ∈ networks) :
    ∃ o, (get_ip_address_from_dhcp_leases networks leasesAt macs).1 = .ok o := by
  match macs with
  | [] => exact ⟨none, rfl⟩
  | mac :: rest =>
    rcases hq : networks.filter (fun n => n == "default") with _ | ⟨x, xs⟩
    · exact absurd hq (filter_default_ne_nil hnet)
    · exact ⟨(dhcpPollLoop leasesAt mac 0 max_attempt).1,
        by simp [get_ip_address_from_dhcp_leases, hq]⟩

/-- Unfolding `create` on an absent hostname with a known distribution and
readable key: the existence check, the image step and the cloud-init step
run in order, and the run ends with whatever `_create_instance` does. -/
lemma create_unfold_absent (w : World) (a : Args) (spec : DistroSpec)
    (habs : a.hostname ∉ w.domains)
    (hcat : dictGet w.catalog a.distribution = .ok spec)
    (hkey : w.keyReadable = true) :
    create w a =
      ((_create_instance w a).1,
       [.log ("check if instance " ++ a.hostname ++ " exist"), .lookup a.hostname,
        .log ("creating instance " ++ a.hostname),
        .exec (qemuImgCmd (imagesPath ++ "/" ++ spec.image)
                 (imagesPath ++ "/" ++ a.hostname)),
        .log (imagesPath ++ "/" ++ a.hostname ++ " created"),
        .log "create cloud-init config file",
        .writeFile "/tmp/user-data", .writeFile "/tmp/meta-data",
        .exec (genisoimageCmd (imagesPath ++ "/" ++ a.hostname ++ ".iso")),
        .log ("cloud-init " ++ (imagesPath ++ "/" ++ a.hostname ++ ".iso") ++ " created")] ++
       (_create_instance w a).2) := by
  simp [create, is_instance_w, habs, _create_image, hcat, _create_cloud_init_config, hkey]

/-- The trace of `_create_instance` always contains the `virt-install`
invocation once the catalog lookup succeeded, whatever the address
resolution does afterwards. -/
lemma create_instance_trace_has_virt_install (w : World) (a : Args) (spec : DistroSpec)
    (hcat : dictGet w.catalog a.distribution = .ok spec) :
    Event.exec (virtInstallCmd a spec) ∈ (_create_instance w a).2 := by
  unfold _create_instance
  rw [hcat]
  rcases hgd : get_dom_ip
      (if w.toolOk (virtInstallCmd a spec) then
        { w with domains := a.hostname :: w.domains, active := a.hostname :: w.active }
      else w) a.hostname with ⟨res, tr⟩
  rcases res with e | ipaddr <;> simp [hgd]

/-- When `virt-install` succeeds and a default network exists, the instance
step returns the world with the new domain defined (and running). -/
lemma create_instance_defines_domain (w : World) (a : Args) (spec : DistroSpec)
    (hcat : dictGet w.catalog a.distribution = .ok spec)
    (hvirt : w.toolOk (virtInstallCmd a spec) = true)
    (hnet : "default" ∈ w.networks) :
    ∃ w1 : World, (_create_instance w a).1 = .ok w1 ∧ a.hostname ∈ w1.domains := by
  have hmac : get_instance_macs
      { w with domains := a.hostname :: w.domains, active := a.hostname :: w.active }
      a.hostname =
      (.ok (w.domainMacs a.hostname), [.lookup a.hostname]) := by
    simp [get_instance_macs]
  obtain ⟨o, ho⟩ := resolver_ok_of_default w.networks w.leasesAt
    (w.domainMacs a.hostname) hnet
  have hgd : (get_dom_ip
      { w with domains := a.hostname :: w.domains, active := a.hostname :: w.active }
      a.hostname).1 = .ok o := by
    simp [get_dom_ip, hmac, ho]
  refine ⟨{ w with domains := a.hostname :: w.domains, active := a.hostname :: w.active },
    ?_, by simp⟩
  unfold _create_instance
  rw [hcat]
  simp only [hvirt, if_true]
  rcases hgd2 : get_dom_ip
      { w with domains := a.hostname :: w.domains, active := a.hostname :: w.active }
      a.hostname with ⟨res, tr⟩
  rw [hgd2] at hgd
  simp only at hgd
  subst hgd
  simp

/-- `create` on an already-defined hostname: log and return, unchanged. -/
lemma create_exists_noop (w : World) (a : Args) (hmem : a.hostname ∈ w.domains) :
    create w a =
      (.ok w, [.log ("check if instance " ++ a.hostname ++ " exist"), .lookup a.hostname,
               .log ("instance " ++ a.hostname ++ " already exists")]) := by
  simp [create, is_instance_w, hmem]

/-! ## Claim theorems -/

/-- C9: for the empty MAC list, `get_ip_address_from_dhcp_leases` returns
its no-interface outcome (the "No MAC addr found for that dom" report with
result `None`) immediately, with zero lease-table polls and zero sleeps,
for every network list and lease oracle. -/
theorem resolver_empty_macs_no_interface (networks : List String)
    (leasesAt : Nat → List Lease) :
    get_ip_address_from_dhcp_leases networks leasesAt [] =
      (.ok none, [.log "No MAC addr found for that dom"]) ∧
    pollCount (get_ip_address_from_dhcp_leases networks leasesAt []).2 = 0 ∧
    sleepCount (get_ip_address_from_dhcp_leases networks leasesAt []).2 = 0 :=
  ⟨rfl, rfl, rfl⟩

/-- C10: for any non-empty MAC list, when the hypervisor lists no network
named `default`, `get_ip_address_from_dhcp_leases` raises `IndexError`
(the `[...][0]` on an empty comprehension) instead of returning a
timeout or no-interface outcome. -/
theorem resolver_missing_default_network (networks : List String)
    (leasesAt : Nat → List Lease) (mac : String) (rest : List String)
    (hnet : "default" ∉ networks) :
    get_ip_address_from_dhcp_leases networks leasesAt (mac :: rest) =
      (.error .indexError,
       [.log ("Getting IP address - waiting for DHCP lease (" ++ mac ++ ") ...")]) := by
  have hfil : networks.filter (fun n => n == "default") = [] := by
    rw [List.filter_eq_nil_iff]
    intro n hn
    simp only [beq_iff_eq]
    intro he; exact hnet (he ▸ hn)
  simp [get_ip_address_from_dhcp_leases, hfil]

/-- Witness for C10 at a concrete network list and MAC. -/
theorem resolver_missing_default_network_witness :
    ("default" ∉ (["mynet"] : List String)) ∧
    get_ip_address_from_dhcp_leases ["mynet"] (fun _ => []) ["52:54:00:00:00:01"] =
      (.error .indexError,
       [.log "Getting IP address - waiting for DHCP lease (52:54:00:00:00:01) ..."]) :=
  ⟨by decide,
   resolver_missing_default_network ["mynet"] (fun _ => []) "52:54:00:00:00:01" [] (by decide)⟩

/-- C7 (the code side of the claim): `is_instance` does NOT propagate
lookup failures other than "no domain".  A `libvirtError` from a broken
connection is caught by the same `except` clause as "no domain" and
reported as `False` (instance absent), and any non-libvirt exception is
swallowed by the `return` in `finally`, which itself raises
`UnboundLocalError` in place of the original error.  This contradicts the
claimed contract, which the spec itself flags as a probable latent bug. -/
theorem is_instance_swallows_lookup_failures :
    is_instance .errLibvirtOther = .ok false ∧
    is_instance .errOther = .error .unboundLocal := by
  exact ⟨rfl, rfl⟩

/-- Counterexample for C8: a `create` run whose command raises (unknown
distribution) terminates with the libvirt connection still open, because
`main` has no `try/finally` around the dispatched command. -/
theorem main_leaves_connection_open_cex :
    main wAll (some argsCreateUnknown) = (.raised (.keyError "unknowndistro"), true) := by
  decide

/-- C8 amended: the connection is opened in the constructor, before any
command runs, but it is closed only on runs whose command returns
normally; every exit via an exception or `sys.exit` (including the
no-subcommand help path) terminates with the connection still open. -/
theorem main_connection_closed_iff_normal (w : World) (parsed : Option Args) :
    (main w parsed).2 = false ↔ (main w parsed).1 = .normal := by
  match parsed with
  | none => simp [main]
  | some a =>
    simp only [main]
    match (runCommand w a).1 with
    | .error (.systemExit c) => simp
    | .error (.keyError k) => simp
    | .error .indexError => simp
    | .error .ioError => simp
    | .error .libvirtNoDomain => simp
    | .error .unboundLocal => simp
    | .ok _ => simp

/-- C4: `destroy` on a hostname with no existing domain is a no-op
success: it logs the existence check and "does not exists", performs the
single `lookupByName` query, and issues no mutation (no stop, no
undefine command, no storage removal); the world is returned unchanged. -/
theorem destroy_absent_noop (w : World) (a : Args)
    (habs : a.hostname ∉ w.domains) :
    destroy w a =
      (.ok w, [.log ("check if instance " ++ a.hostname ++ " exist"), .lookup a.hostname,
               .log ("instance " ++ a.hostname ++ " does not exists")]) ∧
    ∀ e ∈ (destroy w a).2, e.isMutation = false := by
  have h1 : destroy w a =
      (.ok w, [.log ("check if instance " ++ a.hostname ++ " exist"), .lookup a.hostname,
               .log ("instance " ++ a.hostname ++ " does not exists")]) := by
    simp [destroy, is_instance_w, habs]
  refine ⟨h1, ?_⟩
  rw [h1]
  intro e he
  simp only [List.mem_cons, List.not_mem_nil, or_false] at he
  rcases he with h | h | h <;> subst h <;> rfl

/-- Witness for C4 at a concrete world and hostname. -/
theorem destroy_absent_noop_witness :
    argsDestroy.hostname ∉ wAll.domains ∧
    destroy wAll argsDestroy =
      (.ok wAll, [.log "check if instance vm1 exist", .lookup "vm1",
                  .log "instance vm1 does not exists"]) :=
  ⟨by decide, (destroy_absent_noop wAll argsDestroy (by decide)).1⟩

/-- C5: for any non-empty MAC list, against a lease oracle that never
reports the target MAC, the resolver performs a bounded poll loop and
returns its timeout outcome (result `None` with the timeout report) after
exactly `max_attempt + 1 = 46` snapshot queries and `max_attempt = 45`
one-second sleeps — at least the configured 45 attempts, never more than
that window. -/
theorem resolver_timeout_after_max_attempts (networks : List String)
    (leasesAt : Nat → List Lease) (mac : String) (rest : List String)
    (hnet : "default" ∈ networks)
    (hnever : ∀ n, leaseMatches (leasesAt n) mac = []) :
    (get_ip_address_from_dhcp_leases networks leasesAt (mac :: rest)).1 = .ok none ∧
    Event.log "Timeout trying to discover VM ip address" ∈
      (get_ip_address_from_dhcp_leases networks leasesAt (mac :: rest)).2 ∧
    pollCount (get_ip_address_from_dhcp_leases networks leasesAt (mac :: rest)).2 =
      max_attempt + 1 ∧
    sleepCount (get_ip_address_from_dhcp_leases networks leasesAt (mac :: rest)).2 =
      max_attempt ∧
    max_attempt = 45 := by
  have hloop := dhcpPollLoop_never_matches leasesAt mac hnever max_attempt 0
  rcases hq : networks.filter (fun n => n == "default") with _ | ⟨x, xs⟩
  · exact absurd hq (filter_default_ne_nil hnet)
  · have heq : get_ip_address_from_dhcp_leases networks leasesAt (mac :: rest) =
        (.ok none,
         .log ("Getting IP address - waiting for DHCP lease (" ++ mac ++ ") ...") ::
           timeoutTrace max_attempt) := by
      simp [get_ip_address_from_dhcp_leases, hq, hloop]
    rw [heq]
    refine ⟨rfl, ?_, ?_, ?_, rfl⟩
    · simp [timeout_log_mem_timeoutTrace]
    · have h1 := pollCount_timeoutTrace max_attempt
      simp only [pollCount] at h1 ⊢
      simp [List.count_cons, h1]
    · have h1 := sleepCount_timeoutTrace max_attempt
      simp only [sleepCount] at h1 ⊢
      simp [List.count_cons, h1]

/-- Witness for C5: lease oracle with a permanently empty table. -/
theorem resolver_timeout_after_max_attempts_witness :
    (get_ip_address_from_dhcp_leases ["default"] (fun _ => [])
        ["52:54:00:00:00:01"]).1 = .ok none ∧
    Event.log "Timeout trying to discover VM ip address" ∈
      (get_ip_address_from_dhcp_leases ["default"] (fun _ => [])
        ["52:54:00:00:00:01"]).2 ∧
    pollCount (get_ip_address_from_dhcp_leases ["default"] (fun _ => [])
        ["52:54:00:00:00:01"]).2 = max_attempt + 1 ∧
    sleepCount (get_ip_address_from_dhcp_leases ["default"] (fun _ => [])
        ["52:54:00:00:00:01"]).2 = max_attempt ∧
    max_attempt = 45 :=
  resolver_timeout_after_max_attempts ["default"] (fun _ => []) "52:54:00:00:00:01" []
    (by decide) (fun _ => rfl)

/-- C6: for any non-empty MAC list, the resolver targets exactly the first
MAC (`macs[0]`); when the first snapshot whose lease table matches that MAC
is the one seen at poll `d` (within the attempt budget), it returns the
first matching lease's IP after exactly `d + 1` snapshot queries and `d`
sleeps — no further polls. -/
theorem resolver_returns_first_match (networks : List String)
    (leasesAt : Nat → List Lease) (mac ip : String) (rest ips : List String) (d : Nat)
    (hnet : "default" ∈ networks) (hd : d ≤ max_attempt)
    (hb : ∀ j, j < d → leaseMatches (leasesAt j) mac = [])
    (hm : leaseMatches (leasesAt d) mac = ip :: ips) :
    (get_ip_address_from_dhcp_leases networks leasesAt (mac :: rest)).1 = .ok (some ip) ∧
    pollCount (get_ip_address_from_dhcp_leases networks leasesAt (mac :: rest)).2 = d + 1 ∧
    sleepCount (get_ip_address_from_dhcp_leases networks leasesAt (mac :: rest)).2 = d := by
  have hb0 : ∀ j, j < d → leaseMatches (leasesAt (0 + j)) mac = [] := by
    intro j hj
    rw [Nat.zero_add]
    exact hb j hj
  have hm0 : leaseMatches (leasesAt (0 + d)) mac = ip :: ips := by
    rw [Nat.zero_add]; exact hm
  have hloop := dhcpPollLoop_first_match leasesAt mac ip ips d 0 max_attempt hd hb0 hm0
  rcases hq : networks.filter (fun n => n == "default") with _ | ⟨x, xs⟩
  · exact absurd hq (filter_default_ne_nil hnet)
  · have heq : get_ip_address_from_dhcp_leases networks leasesAt (mac :: rest) =
        (.ok (some ip),
         .log ("Getting IP address - waiting for DHCP lease (" ++ mac ++ ") ...") ::
           foundTrace d) := by
      simp [get_ip_address_from_dhcp_leases, hq, hloop]
    rw [heq]
    refine ⟨rfl, ?_, ?_⟩
    · have h1 := pollCount_foundTrace d
      simp only [pollCount] at h1 ⊢
      simp [List.count_cons, h1]
    · have h1 := sleepCount_foundTrace d
      simp only [sleepCount] at h1 ⊢
      simp [List.count_cons, h1]

/-- Counterexample for C1: with `qemu-img` exiting non-zero (and every
other tool succeeding), `create` on an absent hostname still succeeds and
its trace contains the `virt-install` domain-definition invocation: the
image-provisioning failure is not fatal and domain definition is
attempted. -/
theorem create_image_failure_cex :
    resultIsOk (create wNoQemu argsCreate).1 = true ∧
    (create wNoQemu argsCreate).2.contains
      (.exec (virtInstallCmd argsCreate specF)) = true := by
  decide

/-- C1 amended: a non-zero exit of the copy-on-write disk creation is
swallowed — `execute(..., output='devnull')` returns `False` and
`_create_image` discards it — so `create` proceeds and the domain
definition (`virt-install`) is still attempted. -/
theorem create_proceeds_after_image_failure (w : World) (a : Args) (spec : DistroSpec)
    (habs : a.hostname ∉ w.domains)
    (hcat : dictGet w.catalog a.distribution = .ok spec)
    (hkey : w.keyReadable = true)
    (_himg : w.toolOk (qemuImgCmd (imagesPath ++ "/" ++ spec.image)
              (imagesPath ++ "/" ++ a.hostname)) = false) :
    Event.exec (virtInstallCmd a spec) ∈ (create w a).2 := by
  rw [create_unfold_absent w a spec habs hcat hkey]
  have hexec := create_instance_trace_has_virt_install w a spec hcat
  simp [hexec]

/-- Witness for C1's amended theorem in the `qemu-img`-fails world. -/
theorem create_proceeds_after_image_failure_witness :
    argsCreate.hostname ∉ wNoQemu.domains ∧
    dictGet wNoQemu.catalog argsCreate.distribution = .ok specF ∧
    wNoQemu.keyReadable = true ∧
    wNoQemu.toolOk (qemuImgCmd (imagesPath ++ "/" ++ specF.image)
      (imagesPath ++ "/" ++ argsCreate.hostname)) = false ∧
    Event.exec (virtInstallCmd argsCreate specF) ∈ (create wNoQemu argsCreate).2 :=
  ⟨by decide, by rfl, by decide, by decide,
   create_proceeds_after_image_failure wNoQemu argsCreate specF
     (by decide) (by rfl) (by decide) (by decide)⟩

/-- Counterexample for C2: `create` with an unknown distribution fails with
`KeyError` — but only after the existence check has already run (the
`lookupByName` query is in the trace), not before it. -/
theorem create_unknown_distribution_cex :
    resultIsError (create wAll argsCreateUnknown).1 (.keyError "unknowndistro") = true ∧
    (create wAll argsCreateUnknown).2.contains (.lookup "vm1") = true := by
  decide

/-- C2 amended: with an unknown distribution identifier, `create` fails
with the `KeyError` raised by the catalog access inside the image step —
after the existence check, not before it — and with no external command
invoked (zero image, ISO or domain side effects). -/
theorem create_unknown_distribution_fails_after_check (w : World) (a : Args)
    (habs : a.hostname ∉ w.domains)
    (hcat : dictGet w.catalog a.distribution = .error (.keyError a.distribution)) :
    (create w a).1 = .error (.keyError a.distribution) ∧
    Event.lookup a.hostname ∈ (create w a).2 ∧
    ∀ argv, Event.exec argv ∉ (create w a).2 := by
  have heq : create w a =
      (.error (.keyError a.distribution),
       [.log ("check if instance " ++ a.hostname ++ " exist"), .lookup a.hostname,
        .log ("creating instance " ++ a.hostname)]) := by
    simp [create, is_instance_w, habs, _create_image, hcat]
  rw [heq]
  exact ⟨rfl, by simp, by intro argv; simp⟩

/-- Witness for C2's amended theorem. -/
theorem create_unknown_distribution_fails_after_check_witness :
    argsCreateUnknown.hostname ∉ wAll.domains ∧
    dictGet wAll.catalog argsCreateUnknown.distribution = .error (.keyError "unknowndistro") ∧
    (create wAll argsCreateUnknown).1 = .error (.keyError "unknowndistro") :=
  ⟨by decide, by rfl,
   (create_unknown_distribution_fails_after_check wAll argsCreateUnknown
     (by decide) (by rfl)).1⟩

/-- C3: `create` is idempotent.  (i) On any world where the hostname's
domain already exists, `create` logs "already exists" and returns success
with the world unchanged, its trace free of mutations (no image, ISO or
domain-definition command).  (ii) On any world where the hostname is
absent — with the distribution known, the key readable, `virt-install`
succeeding and a default network present — `create` succeeds and leaves
the domain defined, so a second `create` hits case (i). -/
theorem create_idempotent (w : World) (a : Args) (spec : DistroSpec)
    (habs : a.hostname ∉ w.domains)
    (hcat : dictGet w.catalog a.distribution = .ok spec)
    (hkey : w.keyReadable = true)
    (hvirt : w.toolOk (virtInstallCmd a spec) = true)
    (hnet : "default" ∈ w.networks) :
    (∀ w' : World, a.hostname ∈ w'.domains →
      (create w' a =
        (.ok w', [.log ("check if instance " ++ a.hostname ++ " exist"), .lookup a.hostname,
                  .log ("instance " ++ a.hostname ++ " already exists")]) ∧
       ∀ e ∈ (create w' a).2, e.isMutation = false)) ∧
    ∃ w1 : World, (create w a).1 = .ok w1 ∧ a.hostname ∈ w1.domains := by
  constructor
  · intro w' hmem
    have heq := create_exists_noop w' a hmem
    refine ⟨heq, ?_⟩
    rw [heq]
    intro e he
    simp only [List.mem_cons, List.not_mem_nil, or_false] at he
    rcases he with h | h | h <;> subst h <;> rfl
  · obtain ⟨w1, hw1, hmem⟩ := create_instance_defines_domain w a spec hcat hvirt hnet
    refine ⟨w1, ?_, hmem⟩
    rw [create_unfold_absent w a spec habs hcat hkey]
    exact hw1

/-- Witness for C3: in the healthy world, a `create` of `vm1` applied to
the state it produces reports "already exists" and changes nothing. -/
theorem create_idempotent_witness :
    argsCreate.hostname ∉ wAll.domains ∧
    create { wAll with domains := ["vm1"] } argsCreate =
      (.ok { wAll with domains := ["vm1"] },
       [.log "check if instance vm1 exist", .lookup "vm1",
        .log "instance vm1 already exists"]) :=
  ⟨by decide,
   ((create_idempotent wAll argsCreate specF (by decide) (by rfl) (by decide)
      (by decide) (by decide)).1 { wAll with domains := ["vm1"] } (by decide)).1⟩

/-- Lease oracle whose first four snapshots are empty; the fifth poll (and
every later one) reports `leaseA`. -/
def leasesFifthPoll : Nat → List Lease :=
  fun n => if n < 4 then [] else [leaseA]

/-- Witness for C6: the match arrives on the fifth poll (`d = 4`) and the
resolver stops there with `leaseA`'s address. -/
theorem resolver_returns_first_match_witness :
    (get_ip_address_from_dhcp_leases ["default"] leasesFifthPoll
        ["52:54:00:00:00:01"]).1 = .ok (some "192.168.122.50") ∧
    pollCount (get_ip_address_from_dhcp_leases ["default"] leasesFifthPoll
        ["52:54:00:00:00:01"]).2 = 4 + 1 ∧
    sleepCount (get_ip_address_from_dhcp_leases ["default"] leasesFifthPoll
        ["52:54:00:00:00:01"]).2 = 4 :=
  resolver_returns_first_match ["default"] leasesFifthPoll "52:54:00:00:00:01"
    "192.168.122.50" [] [] 4 (by decide) (by decide)
    (by
      intro j hj
      simp [leasesFifthPoll, leaseMatches, hj])
    (by decide)

end CloudImgLauncher
